import Mathlib

/-!
Shallow embedding of the APRS message parser and telemetry-entity layer of
shinysdr (src/shinysdr/plugins/aprs/__init__.py), together with theorems
settling the frozen claims about it.

Modelling conventions:
* Python unicode strings are `List Char` (`Str`); bytes decoded with
  `unicode(line, 'ascii', 'replace')` are modelled by `asciiReplace`.
* Python floats are modelled as exact rationals `ℚ`; decimal float literals
  (0.3048, 1.002, 1.08) are modelled as the exact decimal rationals.
* Python `//` and `%` on ints are `Int.fdiv` / `Int.emod` (floor semantics,
  which for the positive divisors used here coincide with Python).
* Fallible code is `Option`: `_parse_payload` returns `none` exactly where
  the Python code raises an uncaught exception (the Mic-E decode-table
  `KeyError`); all regex mismatches are modelled per the semantics of the
  concrete patterns in the source (`.` does not match a newline, `$` also
  matches just before a single trailing newline).
-/

namespace APRS

abbrev Str := List Char

/-- `unicode(line, 'ascii', 'replace')`: bytes ≥ 0x80 become U+FFFD. -/
def asciiReplace (bs : List Nat) : Str :=
  bs.map (fun b => if b < 128 then Char.ofNat b else Char.ofNat 0xFFFD)

def _SECONDS_PER_HOUR : ℚ := 60 * 60

def _METERS_PER_NAUTICAL_MILE : ℚ := 1852

def _KNOTS_TO_METERS_PER_SECOND : ℚ := _METERS_PER_NAUTICAL_MILE / _SECONDS_PER_HOUR

def _FEET_TO_METERS : ℚ := 3048 / 10000

/-- 30 minutes, standard maximum APRS net cycle time. -/
def drop_unheard_timeout_seconds : ℚ := 60 * 30

/-- Result of Python's `datetime`: a civil date-time.  `microFrac` is the
sub-second part (Python keeps microseconds; we keep the exact fraction). -/
structure PyDatetime where
  year : ℤ
  month : ℤ
  day : ℤ
  hour : ℤ
  minute : ℤ
  second : ℤ
  microFrac : ℚ
deriving DecidableEq, Repr

def isLeapYear (y : ℤ) : Bool :=
  y % 4 == 0 && (y % 100 != 0 || y % 400 == 0)

def daysInMonth (y m : ℤ) : ℤ :=
  if m = 2 then (if isLeapYear y then 29 else 28)
  else if m = 4 ∨ m = 6 ∨ m = 9 ∨ m = 11 then 30
  else 31

/-- Civil (proleptic Gregorian) date from days since the Unix epoch
(Howard Hinnant's `civil_from_days`; all inner divisions act on
non-negative values so floor division is used throughout). -/
def civilFromDays (z0 : ℤ) : ℤ × ℤ × ℤ :=
  let z := z0 + 719468
  let era := z.fdiv 146097
  let doe := z - era * 146097
  let yoe := (doe - doe.fdiv 1460 + doe.fdiv 36524 - doe.fdiv 146096).fdiv 365
  let y := yoe + era * 400
  let doy := doe - (365 * yoe + yoe.fdiv 4 - yoe.fdiv 100)
  let mp := (5 * doy + 2).fdiv 153
  let d := doy - (153 * mp + 2).fdiv 5 + 1
  let m := mp + (if mp < 10 then 3 else -9)
  (y + (if m ≤ 2 then 1 else 0), m, d)

def civilFromSeconds (t : ℤ) : PyDatetime :=
  let rem := t.emod 86400
  let ymd := civilFromDays (t.fdiv 86400)
  { year := ymd.1, month := ymd.2.1, day := ymd.2.2,
    hour := rem.fdiv 3600, minute := (rem.fdiv 60).emod 60, second := rem.emod 60,
    microFrac := 0 }

/-- `datetime.utcfromtimestamp(receive_time)`.  (Python raises for years
outside 1..9999; that range overflow is not modelled — all receive times
are resolved.) -/
def utcfromtimestamp (rt : ℚ) : PyDatetime :=
  { civilFromSeconds (Rat.floor rt) with microFrac := rt - Rat.floor rt }

/-- `datetime.fromtimestamp(receive_time)`: the host's local calendar,
modelled as UTC shifted by a fixed offset `tz` in seconds. -/
def fromtimestampLocal (tz : ℤ) (rt : ℚ) : PyDatetime :=
  { civilFromSeconds (Rat.floor rt + tz) with microFrac := rt - Rat.floor rt }

/-- The closed set of fact variants produced by the parser
(each namedtuple of the source becomes one constructor). -/
inductive Fact : Type where
  | Capabilities (capabilities : List (Str × Option Str))
  | Altitude (value : ℚ) (feet_not_meters : Bool)
  | Messaging (supported : Bool)
  | ObjectItemReport (object : Bool) (name : Str) (live : Bool) (facts : List Fact)
  | KillObject
  | Position (latitude : ℚ) (longitude : ℚ)
  | RadioRange (miles : ℚ)
  | Telemetry (channel : ℤ) (value : ℚ)
  | Status (text : Str)
  | Symbol (id : Str)
  | Timestamp (time : PyDatetime)
  | Velocity (speed_knots : ℚ) (course_degrees : ℚ)

structure APRSMessage where
  receive_time : ℚ
  source : Str
  destination : Str
  via : Str
  payload : Str
  facts : List Fact
  errors : List Str
  comment : Str

/-- `_parse_base91`: radix-91, digit = byte − 33 (no range checking,
exactly as in the source). -/
def _parse_base91 (text : Str) : ℤ :=
  text.foldl (fun value ch => value * 91 + ((ch.toNat : ℤ) - 33)) 0

/-- Simplified Python 2 `repr` of a unicode string (`u'...'`); escape
handling is not modelled — no theorem depends on these strings. -/
def pyRepr (s : Str) : Str :=
  'u' :: '\'' :: (s ++ ['\''])

def digitVal (c : Char) : ℕ := c.toNat - 48

def digitsVal (s : Str) : ℕ := s.foldl (fun a c => a * 10 + digitVal c) 0

/-- The trailing `(.*)$` of the source's regexes under `re.match`:
`.` does not match a newline and `$` also matches just before a single
trailing newline, so the match succeeds iff no interior newline remains,
and a final newline is left out of the captured group. -/
def dotStarEnd (s : Str) : Option Str :=
  let p := s.takeWhile (fun c => c != '\n')
  let q := s.dropWhile (fun c => c != '\n')
  if q = [] ∨ q = ['\n'] then some p else none

def minuteDigit (c : Char) : Char := if c == ' ' then '0' else c

def minuteChar (c : Char) : Bool := c.isDigit || c == ' '

/-- `_parse_angle`: regex `^(\d{1,3})([\d ]{2}\.[\d ]{2})([NESW])$`.
The fixed-width tail and the anchors force the degree group to have
length `n - 6`; spaces in the minutes field count as the digit 0. -/
def _parse_angle (angle_str : Str) : Option ℚ :=
  let n := angle_str.length
  if n < 7 ∨ 9 < n then none
  else
    match angle_str.take (n - 6), angle_str.drop (n - 6) with
    | degrees, [m1, m2, dot, m3, m4, dir] =>
      if degrees.all Char.isDigit && minuteChar m1 && minuteChar m2 && dot == '.'
          && minuteChar m3 && minuteChar m4
          && (dir == 'N' || dir == 'E' || dir == 'S' || dir == 'W') then
        let sign : ℚ := if dir == 'S' || dir == 'W' then -1 else 1
        let minutes : ℚ := (digitsVal [minuteDigit m1, minuteDigit m2] : ℚ)
          + (digitsVal [minuteDigit m3, minuteDigit m4] : ℚ) / 100
        some (sign * ((digitsVal degrees : ℚ) + minutes / 60))
      else none
    | _, _ => none

/-- Subset of Python `float()` used by `_parse_telemetry_value`:
optional sign, decimal digits with optional point, optional exponent.
(Whitespace, `inf`/`nan` and underscores are not modelled.) -/
def pyFloatMantissa (s : Str) : Option ℚ :=
  let ip := s.takeWhile (fun c => c != '.')
  match s.dropWhile (fun c => c != '.') with
  | [] => if ip ≠ [] ∧ ip.all Char.isDigit then some ((digitsVal ip : ℚ)) else none
  | '.' :: fp =>
    if ip.all Char.isDigit ∧ fp.all Char.isDigit ∧ (ip ≠ [] ∨ fp ≠ []) then
      some ((digitsVal ip : ℚ) + (digitsVal fp : ℚ) / (10 : ℚ) ^ fp.length)
    else none
  | _ => none

def pyFloat (s : Str) : Option ℚ :=
  let sgnRest : ℚ × Str :=
    match s with
    | c :: r => if c == '+' then (1, r) else if c == '-' then (-1, r) else (1, c :: r)
    | [] => (1, [])
  let mant := sgnRest.2.takeWhile (fun c => c != 'e' && c != 'E')
  match sgnRest.2.dropWhile (fun c => c != 'e' && c != 'E') with
  | [] => (pyFloatMantissa mant).map (fun m => sgnRest.1 * m)
  | _ :: er =>
    let esgnRest : ℤ × Str :=
      match er with
      | c :: r => if c == '+' then (1, r) else if c == '-' then (-1, r) else (1, c :: r)
      | [] => (1, [])
    if esgnRest.2 ≠ [] ∧ esgnRest.2.all Char.isDigit then
      (pyFloatMantissa mant).map
        (fun m => sgnRest.1 * m * (10 : ℚ) ^ (esgnRest.1 * (digitsVal esgnRest.2 : ℤ)))
    else none

/-- A character allowed in the source/destination groups `[^:>,]`. -/
def envChar (c : Char) : Bool := c != ':' && c != '>' && c != ','

/-- A character allowed inside the via group `[^:>]`. -/
def viaChar (c : Char) : Bool := c != ':' && c != '>'

/-- The envelope regex of `parse_tnc2`:
`^([^:>,]+?)>([^:>,]+)((?:,[^:>]+)*):(.*?)$`.
The lazy source group stops at the first `>`; the greedy destination group
is the maximal `[^:>,]` run (no backtracking can shorten it, because the
next char then could match neither `,` nor `:`); the via group is the
maximal `[^:>]` run, which matches `(?:,[^:>]+)*` iff it is empty or has
length ≥ 2 (it starts with `,` by construction and commas may appear
inside an iteration). -/
def envelopeMatch (line : Str) : Option (Str × Str × Str × Str) :=
  let source := line.takeWhile (fun c => c != '>')
  match line.dropWhile (fun c => c != '>') with
  | '>' :: rest2 =>
    if source ≠ [] ∧ source.all (fun c => c != ':' && c != ',') then
      let destination := rest2.takeWhile envChar
      if destination = [] then none
      else
        match rest2.dropWhile envChar with
        | ':' :: rest4 =>
          (dotStarEnd rest4).map (fun payload => (source, destination, [], payload))
        | ',' :: rest5 =>
          let via := ',' :: rest5.takeWhile viaChar
          match rest5.dropWhile viaChar with
          | ':' :: rest6 =>
            if 2 ≤ via.length then
              (dotStarEnd rest6).map (fun payload => (source, destination, via, payload))
            else none
          | _ => none
        | _ => none
    else none
  | _ => none

/-- `_parse_capability`: regex `^(.*?)=(.*)$` — the lazy group stops at the
first `=`, which must be preceded by no newline; on mismatch the whole
token maps to `None`. -/
def _parse_capability (capability : Str) : Str × Option Str :=
  let pre := capability.takeWhile (fun c => c != '=' && c != '\n')
  match capability.dropWhile (fun c => c != '=' && c != '\n') with
  | '=' :: post =>
    match dotStarEnd post with
    | some v => (pre, some v)
    | none => (capability, none)
  | _ => (capability, none)

/-- Python `str.split(',')` (empty pieces kept, `''` gives one empty piece). -/
def splitCommasAux : Str → Str → List Str
  | acc, [] => [acc.reverse]
  | acc, c :: r => if c == ',' then acc.reverse :: splitCommasAux [] r else splitCommasAux (c :: acc) r

def splitCommas (s : Str) : List Str := splitCommasAux [] s

/-- Python `dict(pairs)`: later pairs win; modelled as the association list
with earlier duplicates dropped. -/
def pyDict (ps : List (Str × Option Str)) : List (Str × Option Str) :=
  match ps with
  | [] => []
  | (k, v) :: rest =>
    if rest.any (fun p => p.1 == k) then pyDict rest
    else (k, v) :: pyDict rest

/-- `/A=(\d{6})` at the current position (`re.search` helper). -/
def matchAltAt (s : Str) : Option (ℕ × Str) :=
  match s with
  | '/' :: 'A' :: '=' :: d1 :: d2 :: d3 :: d4 :: d5 :: d6 :: rest =>
    if ([d1, d2, d3, d4, d5, d6] : Str).all Char.isDigit then
      some (digitsVal [d1, d2, d3, d4, d5, d6], rest)
    else none
  | _ => none

/-- `re.search(r'/A=(\d{6})', comment)`: leftmost match; returns the text
before the match, the captured number, and the text after. -/
def searchCommentAltitude : Str → Option (Str × ℕ × Str)
  | [] => none
  | c :: rest =>
    match matchAltAt (c :: rest) with
    | some (v, after) => some ([], v, after)
    | none => (searchCommentAltitude rest).map (fun r => (c :: r.1, r.2.1, r.2.2))

/-- `_parse_comment_altitude`: on a match, an `Altitude` fact in feet is
appended and the matched text removed from the comment. -/
def _parse_comment_altitude (facts : List Fact) (errors : List Str) (comment : Str) :
    List Fact × List Str × Str :=
  match searchCommentAltitude comment with
  | some (pre, v, post) => (facts ++ [Fact.Altitude (v : ℚ) true], errors, pre ++ post)
  | none => (facts, errors, comment)

/-- The PHG / RNG / DFS / area-object alternatives of
`_parse_data_extension`, tried in order after the course/speed pattern. -/
def dataExtensionRest (facts : List Fact) (errors : List Str) (data : Str) :
    List Fact × List Str × Str :=
  match data with
  | 'P' :: 'H' :: 'G' :: p :: h :: g :: d :: rest =>
    if p.isDigit && h.isDigit && g.isDigit && d.isDigit then
      match dotStarEnd rest with
      | some comment => (facts, errors ++ ["PHG parsing not implemented".toList], comment)
      | none => (facts, errors, data)
    else (facts, errors, data)
  | 'R' :: 'N' :: 'G' :: a :: b :: c :: d :: rest =>
    if a.isDigit && b.isDigit && c.isDigit && d.isDigit then
      match dotStarEnd rest with
      | some comment =>
        (facts ++ [Fact.RadioRange (digitsVal [a, b, c, d] : ℚ)], errors, comment)
      | none => (facts, errors, data)
    else (facts, errors, data)
  | 'D' :: 'F' :: 'S' :: s :: h :: g :: d :: rest =>
    if s.isDigit && h.isDigit && g.isDigit && d.isDigit then
      match dotStarEnd rest with
      | some comment => (facts, errors ++ ["DFS parsing not implemented".toList], comment)
      | none => (facts, errors, data)
    else (facts, errors, data)
  | t :: y1 :: y2 :: cc1 :: cc2 :: x1 :: x2 :: rest =>
    if t.isDigit && y1.isDigit && y2.isDigit && (cc1 == '/' || cc1 == '1') && cc2.isDigit
        && x1.isDigit && x2.isDigit then
      match dotStarEnd rest with
      | some comment => (facts, errors ++ ["Area object not implemented".toList], comment)
      | none => (facts, errors, data)
    else (facts, errors, data)
  | _ => (facts, errors, data)

/-- `_parse_data_extension`: the course/speed pattern
`^(\d\d\d)/(\d\d\d)(.*)$` is tried first (but skipped when the symbol is
the ambiguous area-object symbol `\l`), then the PHG/RNG/DFS/area
alternatives in source order via `dataExtensionRest` (their leading
literals are mutually exclusive, so the per-arm fallthrough matches the
source's sequential `re.match` attempts). -/
def _parse_data_extension (facts : List Fact) (errors : List Str) (data : Str) (symbol : Str) :
    List Fact × List Str × Str :=
  if data.length < 7 then (facts, errors, data)
  else
    let courseSpeed : Option (ℕ × ℕ × Str) :=
      match data with
      | d1 :: d2 :: d3 :: sl :: s1 :: s2 :: s3 :: rest =>
        if d1.isDigit && d2.isDigit && d3.isDigit && sl == '/'
            && s1.isDigit && s2.isDigit && s3.isDigit then
          (dotStarEnd rest).map (fun cm => (digitsVal [d1, d2, d3], digitsVal [s1, s2, s3], cm))
        else none
      | _ => none
    match courseSpeed with
    | some (course, speed, comment) =>
      if symbol ≠ ['\\', 'l'] then
        (facts ++ [Fact.Velocity (speed : ℚ) (course : ℚ)], errors, comment)
      else dataExtensionRest facts errors data
    | none => dataExtensionRest facts errors data

/-- `_parse_symbol` just records the two-character symbol. -/
def _parse_symbol (facts : List Fact) (errors : List Str) (symbol : Str) :
    List Fact × List Str :=
  (facts ++ [Fact.Symbol symbol], errors)

def latLonError (lat lon : Str) : Str :=
  "lat/lon does not parse: (".toList ++ pyRepr lat ++ ", ".toList ++ pyRepr lon ++ ")".toList

/-- `_parse_position_and_symbol`.  Uncompressed branch: regex
`^(\d.{7})(.)(.{9})(.)(.*)$` (19 fixed chars).  Compressed branch: regex
`^(.)(.{4})(.{4})(.)(.)(.)(.)(.*)$` (13 fixed chars); latitude and
longitude use the base91 formulas of the source; the
`comptype_bits & 0b11000 == 0b10000` test is expressed through the two
relevant two's-complement bits (floor semantics, as in Python). -/
def _parse_position_and_symbol (facts : List Fact) (errors : List Str) (data : Str) :
    List Fact × List Str × Str :=
  let uncompressed : Option (Str × Str × Str × Str × Str) :=
    if 19 ≤ data.length ∧ (data.headD ' ').isDigit ∧ (data.take 19).all (fun c => c != '\n') then
      (dotStarEnd (data.drop 19)).map (fun rest =>
        (data.take 8, (data.drop 8).take 1, (data.drop 9).take 9, (data.drop 18).take 1, rest))
    else none
  match uncompressed with
  | some (lat, symbol1, lon, symbol2, ext_and_comment) =>
    let plat := _parse_angle lat
    let plon := _parse_angle lon
    let fe : List Fact × List Str :=
      match plat, plon with
      | some la, some lo => (facts ++ [Fact.Position la lo], errors)
      | _, _ => (facts, errors ++ [latLonError lat lon])
    let symbol := symbol1 ++ symbol2
    let fe2 := _parse_symbol fe.1 fe.2 symbol
    let r := _parse_data_extension fe2.1 fe2.2 ext_and_comment symbol
    _parse_comment_altitude r.1 r.2.1 r.2.2
  | none =>
    match (if 13 ≤ data.length ∧ (data.take 13).all (fun c => c != '\n') then
             dotStarEnd (data.drop 13) else none) with
    | some comment =>
      let symbol1 := data.take 1
      let lat := (data.drop 1).take 4
      let lon := (data.drop 5).take 4
      let symbol2 := (data.drop 9).take 1
      let c := (data.drop 10).take 1
      let s := (data.drop 11).take 1
      let comptype := (data.drop 12).take 1
      let plat : ℚ := 90 - (_parse_base91 lat : ℚ) / 380926
      let plon : ℚ := -180 + (_parse_base91 lon : ℚ) / 190463
      let facts := facts ++ [Fact.Position plat plon]
      let fe2 := _parse_symbol facts errors (symbol1 ++ symbol2)
      let facts := fe2.1
      let comptype_bits := _parse_base91 comptype
      let bit3 := (comptype_bits.fdiv 8).emod 2
      let bit4 := (comptype_bits.fdiv 16).emod 2
      if bit4 = 1 ∧ bit3 = 0 then
        (facts ++ [Fact.Altitude ((1002 / 1000 : ℚ) ^ _parse_base91 (c ++ s)) true],
          errors, comment)
      else if c = [' '] then (facts, errors, comment)
      else if c = [Char.ofNat 123] then
        (facts ++ [Fact.RadioRange ((108 / 100 : ℚ) ^ _parse_base91 s)], errors, comment)
      else if 0 ≤ _parse_base91 c ∧ _parse_base91 c ≤ 89 then
        (facts ++ [Fact.Velocity ((108 / 100 : ℚ) ^ _parse_base91 s - 1)
          ((_parse_base91 c : ℚ) * 4)], errors, comment)
      else (facts, errors, comment)
    | none => (facts, errors ++ ["Position does not parse".toList], data)

/-- `_parse_dhm_hms_timestamp`: regex `^(\d\d)(\d\d)(\d\d)([zh/])$`; the
`try`/`except ValueError` around `datetime.replace` is modelled by the
explicit range conditions under which Python's `replace` succeeds
(hour ≤ 23, minute/second ≤ 59, 1 ≤ day ≤ length of the anchor month).
The ValueError text interpolated into the error message is not modelled. -/
def _parse_dhm_hms_timestamp (facts : List Fact) (errors : List Str) (data : Str)
    (receive_time : ℚ) (tz : ℤ) : List Fact × List Str :=
  let data' := if data.getLast? = some '\n' then data.dropLast else data
  match data' with
  | [a, b, c, d, e, f, kind] =>
    if ([a, b, c, d, e, f] : Str).all Char.isDigit
        ∧ (kind = 'z' ∨ kind = 'h' ∨ kind = '/') then
      let n1 : ℤ := (digitsVal [a, b] : ℕ)
      let n2 : ℤ := (digitsVal [c, d] : ℕ)
      let n3 : ℤ := (digitsVal [e, f] : ℕ)
      if kind = 'h' then
        let base := utcfromtimestamp receive_time
        if n1 ≤ 23 ∧ n2 ≤ 59 ∧ n3 ≤ 59 then
          (facts ++ [Fact.Timestamp { base with hour := n1, minute := n2, second := n3 }],
            errors)
        else (facts, errors ++ ["DHM/HMS timestamp invalid".toList])
      else
        let base := if kind = 'z' then utcfromtimestamp receive_time
                    else fromtimestampLocal tz receive_time
        if 1 ≤ n1 ∧ n1 ≤ daysInMonth base.year base.month ∧ n2 ≤ 23 ∧ n3 ≤ 59 then
          (facts ++ [Fact.Timestamp
            { base with day := n1, hour := n2, minute := n3, second := 0, microFrac := 0 }],
            errors)
        else (facts, errors ++ ["DHM/HMS timestamp invalid".toList])
    else (facts, errors ++ ["DHM/HMS timestamp does not parse".toList])
  | _ => (facts, errors ++ ["DHM/HMS timestamp does not parse".toList])

/-- The 26-entry Mic-E destination decode table
(lat digit, message bit, lat dir, lon offset, lon dir); characters outside
the table raise `KeyError` in Python, modelled as `none`. -/
def _mic_e_addr_decode_table (x : Char) : Option (Char × ℕ × Char × ℕ × ℤ) :=
  match x with
  | '0' => some ('0', 0, 'S', 0, 1)
  | '1' => some ('1', 0, 'S', 0, 1)
  | '2' => some ('2', 0, 'S', 0, 1)
  | '3' => some ('3', 0, 'S', 0, 1)
  | '4' => some ('4', 0, 'S', 0, 1)
  | '5' => some ('5', 0, 'S', 0, 1)
  | '6' => some ('6', 0, 'S', 0, 1)
  | '7' => some ('7', 0, 'S', 0, 1)
  | '8' => some ('8', 0, 'S', 0, 1)
  | '9' => some ('9', 0, 'S', 0, 1)
  | 'A' => some ('0', 1, ' ', 0, 0)
  | 'B' => some ('1', 1, ' ', 0, 0)
  | 'C' => some ('2', 1, ' ', 0, 0)
  | 'D' => some ('3', 1, ' ', 0, 0)
  | 'E' => some ('4', 1, ' ', 0, 0)
  | 'F' => some ('5', 1, ' ', 0, 0)
  | 'G' => some ('6', 1, ' ', 0, 0)
  | 'H' => some ('7', 1, ' ', 0, 0)
  | 'I' => some ('8', 1, ' ', 0, 0)
  | 'J' => some ('9', 1, ' ', 0, 0)
  | 'K' => some (' ', 1, ' ', 0, 0)
  | 'L' => some (' ', 0, 'S', 0, 1)
  | 'P' => some ('0', 1, 'N', 100, -1)
  | 'Q' => some ('1', 1, 'N', 100, -1)
  | 'R' => some ('2', 1, 'N', 100, -1)
  | 'S' => some ('3', 1, 'N', 100, -1)
  | 'T' => some ('4', 1, 'N', 100, -1)
  | 'U' => some ('5', 1, 'N', 100, -1)
  | 'V' => some ('6', 1, 'N', 100, -1)
  | 'W' => some ('7', 1, 'N', 100, -1)
  | 'X' => some ('8', 1, 'N', 100, -1)
  | 'Y' => some ('9', 1, 'N', 100, -1)
  | 'Z' => some (' ', 1, 'N', 100, -1)
  | _ => none

/-- The Mic-E latitude string: digits 0..4, a point, digits 4..6, and the
north/south letter taken from the 4th table entry. -/
def micELatitudeString (entries : List (Char × ℕ × Char × ℕ × ℤ)) : Str :=
  let lat_digits := entries.map (fun e => e.1)
  let ns_bits := entries.map (fun e => e.2.2.1)
  lat_digits.take 4 ++ ['.'] ++ (lat_digits.drop 4).take 2 ++ [ns_bits.getD 3 ' ']

def micELatError (latitude_string : Str) : Str :=
  "Mic-E latitude does not parse: ".toList ++ pyRepr latitude_string

def micETypeError (type_and_more : Str) : Str :=
  "Mic-E contained non-type-code text: ".toList ++ pyRepr type_and_more

/-- The Mic-E trailer: regex `^([] >`'])(?:(...)\})?(.*)$` applied to
`type_and_more` (newline-free by construction).  The greedy optional group
takes the 3-byte base91 altitude when byte 4 is the closing brace. -/
def micETrailer (facts : List Fact) (errors : List Str) (type_and_more : Str) :
    List Fact × List Str × Str :=
  match type_and_more with
  | [] => (facts, errors ++ [micETypeError type_and_more], type_and_more)
  | tc :: tmRest =>
    if tc = ']' ∨ tc = ' ' ∨ tc = '>' ∨ tc = Char.ofNat 96 ∨ tc = Char.ofNat 39 then
      match tmRest with
      | a :: b :: c :: brace :: more =>
        if brace = Char.ofNat 125 then
          (facts ++ [Fact.Altitude ((_parse_base91 [a, b, c] : ℚ) - 10000) false],
            errors, more)
        else (facts, errors, tmRest)
      | _ => (facts, errors, tmRest)
    else (facts, errors ++ [micETypeError type_and_more], type_and_more)

/-- Splits `n` comma-terminated fields (each the maximal comma-free run)
off the front of `s`; fails when a comma is missing. -/
def splitFields : ℕ → Str → Option (List Str × Str)
  | 0, s => some ([], s)
  | n + 1, s =>
    let f := s.takeWhile (fun c => c != ',')
    match s.dropWhile (fun c => c != ',') with
    | ',' :: rest => (splitFields n rest).map (fun r => (f :: r.1, r.2))
    | _ => none

def telemetryBinary (c : Char) : Bool := c == '0' || c == '1'

/-- The telemetry regex
`^T#([^,]*|MIC),?([^,]*),([^,]*),([^,]*),([^,]*),([^,]*),([01]{8})(.*)$`.
First the leftmost-preference parse (greedy `[^,]*` sequence field with
`,?` consuming a comma) is tried, then the first backtracking alternative
(`,?` empty, so the a1 group is empty and the remaining fields shift).
Deeper backtracking alternatives (the `MIC` literal branch, non-maximal
field splits) cannot match when these two fail on comma-free maximal runs;
no theorem depends on inputs reaching them. -/
def telemetryMatch (payload : Str) :
    Option (Str × Str × Str × Str × Str × Str × Str × Str) :=
  match payload with
  | 'T' :: '#' :: rest =>
    let canonical :=
      (splitFields 6 rest).bind (fun fr =>
        match fr.1 with
        | [seq, a1, a2, a3, a4, a5] =>
          let d8 := fr.2.take 8
          if d8.length = 8 ∧ d8.all telemetryBinary then
            (dotStarEnd (fr.2.drop 8)).map (fun cm => (seq, a1, a2, a3, a4, a5, d8, cm))
          else none
        | _ => none)
    match canonical with
    | some r => some r
    | none =>
      (splitFields 5 rest).bind (fun fr =>
        match fr.1 with
        | [seq, a2, a3, a4, a5] =>
          let d8 := fr.2.take 8
          if d8.length = 8 ∧ d8.all telemetryBinary then
            (dotStarEnd (fr.2.drop 8)).map (fun cm => (seq, [], a2, a3, a4, a5, d8, cm))
          else none
        | _ => none)
  | _ => none

def telemetryChannelError (channel : ℤ) (value_str : Str) : Str :=
  "Telemetry channel ".toList ++ (toString channel).toList
    ++ " did not parse: ".toList ++ pyRepr value_str

def _parse_telemetry_value (facts : List Fact) (errors : List Str) (value_str : Str)
    (channel : ℤ) : List Fact × List Str :=
  match pyFloat value_str with
  | none => (facts, errors ++ [telemetryChannelError channel value_str])
  | some value => (facts ++ [Fact.Telemetry channel value], errors)

def unrecognizedError (data_type : Char) : Str :=
  "unrecognized data type: ".toList ++ pyRepr [data_type]

def telemetryError (payload : Str) : Str :=
  "Telemetry did not parse: ".toList ++ pyRepr payload

/-- `_parse_payload`: dispatch on the data-type identifier `payload[0]`.
Returns `none` exactly where the Python function raises an uncaught
exception: the `KeyError` from `_mic_e_addr_decode_table[x]` on a
destination character outside the table.  The Mic-E and `'` markers are
written `Char.ofNat 96` / `Char.ofNat 39` (backquote / apostrophe). -/
def _parse_payload (facts : List Fact) (errors : List Str) (source destination payload : Str)
    (receive_time : ℚ) (tz : ℤ) : Option (List Fact × List Str × Str) :=
  match payload with
  | [] => some (facts, errors ++ ["zero length information".toList], [])
  | data_type :: payloadRest =>
    if data_type = '!' ∨ data_type = '=' then
      some (_parse_position_and_symbol (facts ++ [Fact.Messaging (data_type = '=')])
        errors payloadRest)
    else if data_type = '/' ∨ data_type = '@' then
      let facts := facts ++ [Fact.Messaging (data_type = '@')]
      match (if 8 ≤ payload.length ∧ (payload.take 8).all (fun c => c != '\n') then
               dotStarEnd (payload.drop 8) else none) with
      | none => some (facts, errors ++ ["Position With Timestamp is too short".toList], payload)
      | some position_str =>
        let time_str := (payload.drop 1).take 7
        let fe := _parse_dhm_hms_timestamp facts errors time_str receive_time tz
        some (_parse_position_and_symbol fe.1 fe.2 position_str)
    else if data_type = '<' then
      some (facts ++ [Fact.Capabilities (pyDict ((splitCommas payloadRest).map _parse_capability))],
        errors, [])
    else if data_type = '>' then
      some (facts ++ [Fact.Status payloadRest], errors, [])
    else if data_type = Char.ofNat 96 ∨ data_type = Char.ofNat 39 then
      match (if 9 ≤ payload.length ∧ (payload.take 9).all (fun c => c != '\n') then
               dotStarEnd (payload.drop 9) else none) with
      | none => some (facts, errors ++ ["Mic-E Information is too short".toList], payload)
      | some type_and_more =>
        if destination.length < 6 then
          some (facts, errors ++ ["Mic-E Destination Address is too short".toList], payload)
        else
          match (destination.take 6).mapM _mic_e_addr_decode_table with
          | none => none
          | some entries =>
            let lon_offset_bits := entries.map (fun e => e.2.2.2.1)
            let ew_bits := entries.map (fun e => e.2.2.2.2)
            let latitude_string := micELatitudeString entries
            let latitude := _parse_angle latitude_string
            let longitude_offset : ℤ := (lon_offset_bits.getD 4 0 : ℕ)
            let d28 := (payload.drop 1).headD ' '
            let m28 := (payload.drop 2).headD ' '
            let h28 := (payload.drop 3).headD ' '
            let sp28 := (payload.drop 4).headD ' '
            let dc28 := (payload.drop 5).headD ' '
            let se28 := (payload.drop 6).headD ' '
            let symbol_rev := (payload.drop 7).take 2
            let lon_d0 : ℤ := (d28.toNat : ℤ) - 28 + longitude_offset
            let lon_d := if 180 ≤ lon_d0 ∧ lon_d0 ≤ 189 then lon_d0 - 80
                         else if 190 ≤ lon_d0 ∧ lon_d0 ≤ 199 then lon_d0 - 190
                         else lon_d0
            let lon_m0 : ℤ := (m28.toNat : ℤ) - 28
            let lon_m := if 60 ≤ lon_m0 then lon_m0 - 60 else lon_m0
            let lon_s : ℤ := (h28.toNat : ℤ) - 28
            let longitude : ℚ :=
              ((ew_bits.getD 5 0 : ℤ) : ℚ) * ((lon_d : ℚ) + ((lon_m : ℚ) + (lon_s : ℚ) / 100) / 60)
            let fe : List Fact × List Str :=
              match latitude with
              | some la => (facts ++ [Fact.Position la longitude], errors)
              | none => (facts, errors ++ [micELatError latitude_string])
            let dc : ℤ := (dc28.toNat : ℤ) - 28
            let speed0 : ℤ := ((sp28.toNat : ℤ) - 28) * 10 + dc.fdiv 10
            let course0 : ℤ := dc.emod 10 + ((se28.toNat : ℤ) - 28)
            let speed := if 800 ≤ speed0 then speed0 - 800 else speed0
            let course := if 400 ≤ course0 then course0 - 400 else course0
            let facts := fe.1 ++ [Fact.Velocity (speed : ℚ) (course : ℚ)]
            let fe2 := _parse_symbol facts fe.2 [symbol_rev.getD 1 ' ', symbol_rev.getD 0 ' ']
            some (micETrailer fe2.1 fe2.2 type_and_more)
    else if data_type = ';' then
      match (if 18 ≤ payload.length ∧ (payload.take 18).all (fun c => c != '\n')
                ∧ ((payload.drop 10).headD ' ' = '*' ∨ (payload.drop 10).headD ' ' = '_') then
               dotStarEnd (payload.drop 18) else none) with
      | none => some (facts, errors ++ ["Object Information did not parse".toList], payload)
      | some position_ext_and_comment =>
        let name := (payload.drop 1).take 9
        let live_str := (payload.drop 10).headD ' '
        let time_str := (payload.drop 11).take 7
        let oe := _parse_dhm_hms_timestamp [] errors time_str receive_time tz
        let r := _parse_position_and_symbol oe.1 oe.2 position_ext_and_comment
        some (facts ++ [Fact.ObjectItemReport true name (live_str = '*') r.1],
          r.2.1, r.2.2)
    else if data_type = 'T' then
      match telemetryMatch payload with
      | none => some (facts, errors ++ [telemetryError payload], [])
      | some (_seq, a1, a2, a3, a4, a5, _digital, comment) =>
        let r1 := _parse_telemetry_value facts errors a1 1
        let r2 := _parse_telemetry_value r1.1 r1.2 a2 2
        let r3 := _parse_telemetry_value r2.1 r2.2 a3 3
        let r4 := _parse_telemetry_value r3.1 r3.2 a4 4
        let r5 := _parse_telemetry_value r4.1 r4.2 a5 5
        some (r5.1, r5.2, comment)
    else
      some (facts, errors ++ [unrecognizedError data_type], payload)

/-- `parse_tnc2`: the envelope parse and dispatch.  `tz` is the host's
local-time offset used only by the `/`-kind timestamps
(`datetime.fromtimestamp`); `none` models the uncaught Mic-E `KeyError`. -/
def parse_tnc2 (tz : ℤ) (line : Str) (receive_time : ℚ) : Option APRSMessage :=
  match envelopeMatch line with
  | none =>
    some { receive_time := receive_time, source := [], destination := [], via := [],
           payload := line, facts := [], errors := ["Could not parse TNC2".toList],
           comment := line }
  | some (source, destination, via, payload) =>
    (_parse_payload [] [] source destination payload receive_time tz).map
      (fun r => { receive_time := receive_time, source := source,
                  destination := destination, via := via, payload := payload,
                  facts := r.1, errors := r.2.1, comment := r.2.2 })

/-- Modelled from the spec: `shinysdr.telemetry.Track` is not under src/;
per §3 the track holds latitude, longitude, altitude, horizontal speed and
track angle, each as an optional (value, timestamp) `TelemetryItem`. -/
structure Track where
  latitude : Option (ℚ × ℚ)
  longitude : Option (ℚ × ℚ)
  altitude : Option (ℚ × ℚ)
  h_speed : Option (ℚ × ℚ)
  track_angle : Option (ℚ × ℚ)
deriving DecidableEq

def empty_track : Track :=
  { latitude := none, longitude := none, altitude := none, h_speed := none, track_angle := none }

/-- `APRSStation` state (the `__`-mangled instance fields).
`last_heard_time` starts as Python `None`, modelled with `Option`. -/
structure APRSStation where
  last_heard_time : Option ℚ
  address : Str
  track : Track
  status : Str
  symbol : Str
  last_comment : Str
  last_parse_error : Str

/-- `APRSStation.__init__`. -/
def APRSStation.init (object_id : Str) : APRSStation :=
  { last_heard_time := none, address := object_id, track := empty_track,
    status := [], symbol := [], last_comment := [], last_parse_error := [] }

/-- One iteration of the fact loop in `APRSStation.receive` (the
`isinstance` chain; the constructors are disjoint, so the separate `if`s
and the `elif` chain of the source reduce to a single match). -/
def receiveFact (receive_time : ℚ) (st : APRSStation) (fact : Fact) : APRSStation :=
  match fact with
  | .KillObject => { st with last_heard_time := some 0 }
  | .Position la lo =>
    { st with track := { st.track with
        latitude := some (la, receive_time), longitude := some (lo, receive_time) } }
  | .Altitude v feet =>
    { st with track := { st.track with
        altitude := some (v * (if feet then _FEET_TO_METERS else 1), receive_time) } }
  | .Velocity sk cd =>
    { st with track := { st.track with
        h_speed := some (sk * _KNOTS_TO_METERS_PER_SECOND, receive_time),
        track_angle := some (cd, receive_time) } }
  | .Status text => { st with status := text }
  | .Symbol id => { st with symbol := id }
  | _ => st

/-- `APRSStation.receive`. -/
def APRSStation.receive (st : APRSStation) (message : APRSMessage) : APRSStation :=
  let st := { st with last_heard_time := some message.receive_time }
  let st := message.facts.foldl (receiveFact message.receive_time) st
  let st := { st with last_comment := message.comment }
  if 0 < message.errors.length then
    { st with last_parse_error := List.intercalate "; ".toList message.errors }
  else st

/-- `get_object_expiry = last_heard_time + drop_unheard_timeout_seconds`
(Python would raise on a never-heard entity; modelled with `Option.map`). -/
def APRSStation.get_object_expiry (st : APRSStation) : Option ℚ :=
  st.last_heard_time.map (fun t => t + drop_unheard_timeout_seconds)

/-- Modelled from the spec: `shinysdr.telemetry.TelemetryStore` is not
under src/; per §4.8 and §6 it maps object id → entity, creates the entity
on first sight (`get_object_constructor` = `APRSStation`, keyed by
`get_object_id` = `Message.source`) and forwards the message to
`Entity.receive`. -/
abbrev Store := List (Str × APRSStation)

def Store.get (store : Store) (object_id : Str) : Option APRSStation :=
  (store.find? (fun p => p.1 == object_id)).map (fun p => p.2)

def Store.receive (store : Store) (message : APRSMessage) : Store :=
  let oid := message.source
  let entity := (Store.get store oid).getD (APRSStation.init oid)
  (oid, entity.receive message) :: store.filter (fun p => p.1 != oid)

/-- `expand_aprs_message` (source lines 64–82): deliver the message, then
for each `ObjectItemReport` fact deliver a synthetic message keyed by the
report's name whose facts are the nested facts when live, else a single
`KillObject`.  (The Python `None` destination/via/payload of the synthetic
message are modelled as empty strings; no claim observes them.) -/
def expand_aprs_message (message : APRSMessage) (store : Store) : Store :=
  let store := store.receive message
  message.facts.foldl (fun store fact =>
    match fact with
    | .ObjectItemReport _ name live ifacts =>
      store.receive { receive_time := message.receive_time, source := name,
                      destination := [], via := [], payload := [],
                      facts := if live then ifacts else [Fact.KillObject],
                      errors := message.errors, comment := message.comment }
    | _ => store) store

/-- The per-field write a single fact performs on the entity, used to
characterise the fact-fold of `APRSStation.receive`. -/
structure FactWrites where
  kill : Bool
  pos : Option (ℚ × ℚ)
  alt : Option ℚ
  vel : Option (ℚ × ℚ)
  status : Option Str
  symbol : Option Str

def emptyWrites : FactWrites :=
  { kill := false, pos := none, alt := none, vel := none, status := none, symbol := none }

def writeOfFact : Fact → FactWrites
  | .KillObject => { emptyWrites with kill := true }
  | .Position la lo => { emptyWrites with pos := some (la, lo) }
  | .Altitude v feet => { emptyWrites with alt := some (v * (if feet then _FEET_TO_METERS else 1)) }
  | .Velocity sk cd => { emptyWrites with vel := some (sk * _KNOTS_TO_METERS_PER_SECOND, cd) }
  | .Status text => { emptyWrites with status := some text }
  | .Symbol id => { emptyWrites with symbol := some id }
  | _ => emptyWrites

/-- Later (second argument) wins where present. -/
def owins {α : Type} (later earlier : Option α) : Option α :=
  match later with
  | some x => some x
  | none => earlier

def overrideWrites (a b : FactWrites) : FactWrites :=
  { kill := a.kill || b.kill,
    pos := owins b.pos a.pos,
    alt := owins b.alt a.alt,
    vel := owins b.vel a.vel,
    status := owins b.status a.status,
    symbol := owins b.symbol a.symbol }

/-- The accumulated (last-wins) writes of a fact list. -/
def factWrites : List Fact → FactWrites
  | [] => emptyWrites
  | f :: fs => overrideWrites (writeOfFact f) (factWrites fs)

/-- Installing accumulated writes on an entity at a given receive time. -/
def applyWrites (rt : ℚ) (s : APRSStation) (w : FactWrites) : APRSStation :=
  { s with
    last_heard_time := if w.kill then some 0 else s.last_heard_time,
    track := {
      latitude := match w.pos with | some p => some (p.1, rt) | none => s.track.latitude,
      longitude := match w.pos with | some p => some (p.2, rt) | none => s.track.longitude,
      altitude := match w.alt with | some v => some (v, rt) | none => s.track.altitude,
      h_speed := match w.vel with | some v => some (v.1, rt) | none => s.track.h_speed,
      track_angle := match w.vel with | some v => some (v.2, rt) | none => s.track.track_angle },
    status := w.status.getD s.status,
    symbol := w.symbol.getD s.symbol }

/-- The specified net effect of `APRSStation.receive` (used to state the
merge rule): last-write-wins per field, comment always overwritten, the
parse error only overwritten when the message carries errors. -/
def receiveSpec (s : APRSStation) (m : APRSMessage) : APRSStation :=
  let w := factWrites m.facts
  { last_heard_time := if w.kill then some 0 else some m.receive_time,
    address := s.address,
    track := (applyWrites m.receive_time s w).track,
    status := w.status.getD s.status,
    symbol := w.symbol.getD s.symbol,
    last_comment := m.comment,
    last_parse_error := if m.errors = [] then s.last_parse_error
                        else List.intercalate "; ".toList m.errors }

def countTelemetry (fs : List Fact) : ℕ :=
  fs.countP (fun f => match f with | Fact.Telemetry _ _ => true | _ => false)

def digitChar : ℕ → Char
  | 0 => '0'
  | 1 => '1'
  | 2 => '2'
  | 3 => '3'
  | 4 => '4'
  | 5 => '5'
  | 6 => '6'
  | 7 => '7'
  | 8 => '8'
  | 9 => '9'
  | _ => ' '

/-- Outcome asserted by claim C3: after dispatching the message, the
entity `OBJ1` exists with the minimum-sentinel heard time 0, hence an
expiry of 1800 — independent of the receive time. -/
def killObjectOutcome (m : APRSMessage) (store : Store) : Prop :=
  ∃ e, Store.get (expand_aprs_message m store) "OBJ1".toList = some e ∧
    e.last_heard_time = some 0 ∧ e.get_object_expiry = some 1800

/-- Outcome asserted by (the amended) claim C2 for a 13-character
compressed-position body: the Position fact uses the source's base91
formulas and lies within the exact attainable bounds. -/
def compressedOutcome (s1 l1 l2 l3 l4 o1 o2 o3 o4 s2 c s t : Char) : Prop :=
  let data : Str := [s1, l1, l2, l3, l4, o1, o2, o3, o4, s2, c, s, t]
  let plat : ℚ := 90 - (_parse_base91 [l1, l2, l3, l4] : ℚ) / 380926
  let plon : ℚ := -180 + (_parse_base91 [o1, o2, o3, o4] : ℚ) / 190463
  ∃ fs es cm, _parse_position_and_symbol [] [] data = (fs, es, cm) ∧
    Fact.Position plat plon ∈ fs ∧
    90 - (68574960 : ℚ) / 380926 ≤ plat ∧ plat ≤ 90 ∧
    -180 ≤ plon ∧ plon ≤ -180 + (68574960 : ℚ) / 190463

/-- Outcome asserted by claim C9 for a six-digit timestamp field with kind
byte `k`: in-range values yield exactly one `Timestamp` fact resolved
against the receive-time anchor (UTC calendar for `z`/`h`, local calendar
for `/`); out-of-range values yield one error and no fact. -/
def timestampOutcome (a b c d e f : ℕ) (k : Char) (facts : List Fact) (errors : List Str)
    (rt : ℚ) (tz : ℤ) : Prop :=
  let data : Str := [digitChar a, digitChar b, digitChar c, digitChar d, digitChar e,
    digitChar f, k]
  let n1 : ℤ := (10 * a + b : ℕ)
  let n2 : ℤ := (10 * c + d : ℕ)
  let n3 : ℤ := (10 * e + f : ℕ)
  let base := if k = '/' then fromtimestampLocal tz rt else utcfromtimestamp rt
  let ok : Prop := if k = 'h' then n1 ≤ 23 ∧ n2 ≤ 59 ∧ n3 ≤ 59
                   else 1 ≤ n1 ∧ n1 ≤ daysInMonth base.year base.month ∧ n2 ≤ 23 ∧ n3 ≤ 59
  let tsf : PyDatetime :=
    if k = 'h' then { base with hour := n1, minute := n2, second := n3 }
    else { base with day := n1, hour := n2, minute := n3, second := 0, microFrac := 0 }
  (ok → _parse_dhm_hms_timestamp facts errors data rt tz
          = (facts ++ [Fact.Timestamp tsf], errors)) ∧
  (¬ ok → _parse_dhm_hms_timestamp facts errors data rt tz
          = (facts, errors ++ ["DHM/HMS timestamp invalid".toList]))

/-- Outcome asserted by claim C10 for a structurally well-formed Mic-E
payload whose destination maps through the decode table: a Velocity and a
Symbol fact are always emitted, and when the latitude string does not
parse no Position fact is produced and the latitude error appears. -/
def micEOutcome (src dest payload : Str) (rt : ℚ) (tz : ℤ)
    (entries : List (Char × ℕ × Char × ℕ × ℤ)) : Prop :=
  ∃ fs es cm, _parse_payload [] [] src dest payload rt tz = some (fs, es, cm) ∧
    (∃ sk cd, Fact.Velocity sk cd ∈ fs) ∧ (∃ sid, Fact.Symbol sid ∈ fs) ∧
    (_parse_angle (micELatitudeString entries) = none →
      (∀ la lo, Fact.Position la lo ∉ fs) ∧ micELatError (micELatitudeString entries) ∈ es)

example : _parse_angle "4903.50N".toList = some (49 + 3.5 / 60) := by with_unfolding_all rfl
example : _parse_angle "07201.75W".toList = some (-(72 + 1.75 / 60)) := by with_unfolding_all rfl
example : _parse_angle "0000.00 ".toList = none := by with_unfolding_all rfl
example : pyFloat "050".toList = some 50 := by with_unfolding_all rfl

example : civilFromSeconds 0
    = { year := 1970, month := 1, day := 1, hour := 0, minute := 0, second := 0,
        microFrac := 0 } := by with_unfolding_all rfl
example : civilFromSeconds 1456704000
    = { year := 2016, month := 2, day := 29, hour := 0, minute := 0, second := 0,
        microFrac := 0 } := by with_unfolding_all rfl
example : civilFromSeconds (-1)
    = { year := 1969, month := 12, day := 31, hour := 23, minute := 59, second := 59,
        microFrac := 0 } := by with_unfolding_all rfl
example : _parse_dhm_hms_timestamp [] [] "291234z".toList 1456704000 0
    = ([Fact.Timestamp
         { year := 2016, month := 2, day := 29, hour := 12, minute := 34,
           second := 0, microFrac := 0 }], []) := by with_unfolding_all rfl
example : _parse_dhm_hms_timestamp [] [] "301234z".toList 1456704000 0
    = ([], ["DHM/HMS timestamp invalid".toList]) := by with_unfolding_all rfl
example : _parse_dhm_hms_timestamp [] [] "235959h".toList (3 / 2) 0
    = ([Fact.Timestamp
         { year := 1970, month := 1, day := 1, hour := 23, minute := 59,
           second := 59, microFrac := 1 / 2 }], []) := by with_unfolding_all rfl
example : _parse_dhm_hms_timestamp [] [] "311234/".toList 0 (-3600)
    = ([Fact.Timestamp
         { year := 1969, month := 12, day := 31, hour := 12, minute := 34,
           second := 0, microFrac := 0 }], []) := by with_unfolding_all rfl

theorem applyWrites_receiveFact (rt : ℚ) (f : Fact) (s : APRSStation) (w : FactWrites) :
    applyWrites rt (receiveFact rt s f) w
      = applyWrites rt s (overrideWrites (writeOfFact f) w) := by
  obtain ⟨k, p, al, v, stw, sy⟩ := w
  cases f <;> cases k <;> cases p <;> cases al <;> cases v <;> cases stw <;> cases sy <;> rfl

theorem foldl_receiveFact (rt : ℚ) (fs : List Fact) :
    ∀ s : APRSStation, fs.foldl (receiveFact rt) s = applyWrites rt s (factWrites fs) := by
  induction fs with
  | nil => intro s; rfl
  | cons f t ih =>
    intro s
    show t.foldl (receiveFact rt) (receiveFact rt s f) = _
    rw [ih, applyWrites_receiveFact]
    rfl

theorem receive_eq_receiveSpec (s : APRSStation) (m : APRSMessage) :
    s.receive m = receiveSpec s m := by
  unfold APRSStation.receive receiveSpec
  simp only [foldl_receiveFact]
  rcases hm : m.errors with _ | ⟨e0, etail⟩ <;> simp [hm, applyWrites]

theorem receiveSpec_idem (s : APRSStation) (m : APRSMessage) :
    receiveSpec (receiveSpec s m) m = receiveSpec s m := by
  simp only [receiveSpec]
  generalize factWrites m.facts = w
  obtain ⟨k, p, al, v, stw, sy⟩ := w
  by_cases he : m.errors = [] <;>
    cases k <;> cases p <;> cases al <;> cases v <;> cases stw <;> cases sy <;>
      simp [he, applyWrites]

/-- Claim C6: entity merge is idempotent — applying the same Message twice
to a fresh entity yields exactly the state of applying it once
(`APRSStation.receive` is a pure function of state and message). -/
theorem aprs_c6_idempotent (object_id : Str) (m : APRSMessage) :
    ((APRSStation.init object_id).receive m).receive m
      = (APRSStation.init object_id).receive m := by
  simp only [receive_eq_receiveSpec]
  exact receiveSpec_idem _ m

/-- Claim C4 (amended): after `receive`, status and symbol carry the last
Status/Symbol fact of the message (unchanged when the message has none),
the comment is always overwritten, and `last_parse_error` is overwritten
with the joined errors when the message carries errors and left unchanged
— not cleared — when it carries none. -/
theorem aprs_c4_amended (s : APRSStation) (m : APRSMessage) :
    (s.receive m).status = ((factWrites m.facts).status).getD s.status ∧
    (s.receive m).symbol = ((factWrites m.facts).symbol).getD s.symbol ∧
    (s.receive m).last_comment = m.comment ∧
    (s.receive m).last_parse_error =
      (if m.errors = [] then s.last_parse_error
       else List.intercalate "; ".toList m.errors) := by
  rw [receive_eq_receiveSpec]
  exact ⟨rfl, rfl, rfl, rfl⟩

/-- Claim C4 counterexample: a message with no errors does NOT clear
`last_parse_error` to the empty string — the previous error survives. -/
theorem aprs_c4_counterexample :
    (((APRSStation.init "A".toList).receive
        { receive_time := 1, source := "A".toList, destination := [], via := [], payload := [],
          facts := [], errors := ["E".toList], comment := [] }).receive
        { receive_time := 2, source := "A".toList, destination := [], via := [], payload := [],
          facts := [], errors := [], comment := [] }).last_parse_error = "E".toList ∧
    "E".toList ≠ ([] : Str) := by
  exact ⟨by with_unfolding_all rfl, by decide⟩

/-- Claim C3: a Message whose single fact is an `ObjectItemReport` with
`live = false` and name `OBJ1`, dispatched through `expand_aprs_message`,
leaves the entity `OBJ1` with the minimum sentinel heard time 0 and expiry
`0 + 1800 = 1800`, independently of the receive time. -/
theorem store_get_receive (st : Store) (msg : APRSMessage) :
    Store.get (st.receive msg) msg.source
      = some (((Store.get st msg.source).getD (APRSStation.init msg.source)).receive msg) := by
  simp [Store.receive, Store.get, List.find?]

theorem receive_killobject_heard (s : APRSStation) (msg : APRSMessage)
    (h : msg.facts = [Fact.KillObject]) : (s.receive msg).last_heard_time = some 0 := by
  rw [receive_eq_receiveSpec]
  simp [receiveSpec, h, factWrites, writeOfFact, overrideWrites, emptyWrites]

theorem aprs_c3_kill_object (store : Store) (m : APRSMessage) (obj : Bool)
    (ifacts : List Fact)
    (hfacts : m.facts = [Fact.ObjectItemReport obj "OBJ1".toList false ifacts]) :
    killObjectOutcome m store := by
  unfold killObjectOutcome expand_aprs_message
  rw [hfacts]
  simp only [List.foldl]
  have hheard :
      ∀ s : APRSStation,
        (s.receive
            { receive_time := m.receive_time, source := "OBJ1".toList,
              destination := [], via := [], payload := [],
              facts := if false = true then ifacts else [Fact.KillObject],
              errors := m.errors, comment := m.comment }).last_heard_time = some 0 := by
    intro s
    exact receive_killobject_heard s _ (by simp)
  refine ⟨_, store_get_receive _ _, hheard _, ?_⟩
  unfold APRSStation.get_object_expiry
  rw [hheard]
  simp [drop_unheard_timeout_seconds]
  norm_num

theorem aprs_c3_witness :
    killObjectOutcome
      { receive_time := 5, source := "SRC".toList, destination := [], via := [],
        payload := [], facts := [Fact.ObjectItemReport true "OBJ1".toList false []],
        errors := [], comment := [] }
      [] :=
  aprs_c3_kill_object [] _ true [] rfl

/-- Claim C1 (refuted by the code): `parse_tnc2` does raise on a Mic-E
payload whose destination contains a character outside the 26-entry decode
table — the dict lookup raises `KeyError('M')`, modelled as `none`. -/
theorem aprs_c1_mic_e_keyerror :
    parse_tnc2 0 "N0CALL>MMMMMM:`00000000".toList 0 = none := by
  with_unfolding_all rfl

/-- Claim C5 (amended): any line rejected by the envelope grammar yields
the degenerate message with empty source/destination/via, payload and
comment equal to the whole line and the single error
`Could not parse TNC2` (not `Could not parse envelope`). -/
theorem aprs_c5_amended (line : Str) (rt : ℚ) (tz : ℤ) (h : envelopeMatch line = none) :
    parse_tnc2 tz line rt
      = some { receive_time := rt, source := [], destination := [], via := [],
               payload := line, facts := [], errors := ["Could not parse TNC2".toList],
               comment := line } := by
  unfold parse_tnc2
  rw [h]

theorem aprs_c5_witness :
    parse_tnc2 0 "garbage no colon".toList 0
      = some { receive_time := 0, source := [], destination := [], via := [],
               payload := "garbage no colon".toList, facts := [],
               errors := ["Could not parse TNC2".toList],
               comment := "garbage no colon".toList } :=
  aprs_c5_amended "garbage no colon".toList 0 0 (by with_unfolding_all rfl)

/-- Claim C5 counterexample: the error string produced for a line that
fails the envelope grammar is `Could not parse TNC2`, not the claimed
`Could not parse envelope`. -/
theorem aprs_c5_counterexample :
    (parse_tnc2 0 "garbage no colon".toList 0).map (fun m => m.errors)
      = some ["Could not parse TNC2".toList] ∧
    "Could not parse TNC2".toList ≠ "Could not parse envelope".toList := by
  exact ⟨by with_unfolding_all rfl, by decide⟩

/-- Claim C7: decoding Example 1 yields the Position fact
(49 + 3.50/60, −(72 + 1.75/60)), the Symbol slash-dash and the comment
`Test`. -/
theorem aprs_c7_example1 :
    parse_tnc2 0 "N0CALL>APRS,WIDE1-1:!4903.50N/07201.75W-Test".toList 0 =
      some { receive_time := 0, source := "N0CALL".toList, destination := "APRS".toList,
             via := ",WIDE1-1".toList, payload := "!4903.50N/07201.75W-Test".toList,
             facts := [Fact.Messaging false,
                       Fact.Position (49 + 3.5 / 60) (-(72 + 1.75 / 60)),
                       Fact.Symbol "/-".toList],
             errors := [], comment := "Test".toList } := by
  with_unfolding_all rfl

/-- Claim C8 counterexample: the claimed line has a double colon, so the
payload starts with `:` — an unrecognized data type — and zero Telemetry
facts are produced (the claim asserts five). -/
theorem aprs_c8_counterexample :
    (parse_tnc2 0 "N0CALL>APRS::T#005,100,050,025,080,005,00000000".toList 0).map
        (fun m => countTelemetry m.facts) = some 0 ∧ (0 : ℕ) ≠ 5 := by
  exact ⟨by with_unfolding_all rfl, by decide⟩

/-- Claim C8 (amended): with a single colon the telemetry payload decodes
to exactly five Telemetry facts, channels 1..5 with values
100, 50, 25, 80, 5. -/
theorem aprs_c8_amended :
    (parse_tnc2 0 "N0CALL>APRS:T#005,100,050,025,080,005,00000000".toList 0).map
        (fun m => m.facts)
      = some [Fact.Telemetry 1 100, Fact.Telemetry 2 50, Fact.Telemetry 3 25,
              Fact.Telemetry 4 80, Fact.Telemetry 5 5] := by
  with_unfolding_all rfl

/-- Claim C2 counterexample: all-maximal base91 digits (byte 123) give
latitude 90 − 68574960/380926 < −90 and longitude −180 + 68574960/190463
> 180, outside the claimed [−90, 90] × [−180, 180]. -/
theorem aprs_c2_counterexample :
    _parse_position_and_symbol [] []
        "/\x7b\x7b\x7b\x7b\x7b\x7b\x7b\x7b-  !".toList
      = ([Fact.Position (90 - 68574960 / 380926) (-180 + 68574960 / 190463),
          Fact.Symbol "/-".toList], [], []) ∧
    (90 - (68574960 : ℚ) / 380926) < -90 ∧ (180 : ℚ) < -180 + (68574960 : ℚ) / 190463 := by
  refine ⟨by with_unfolding_all rfl, by norm_num, by norm_num⟩

theorem base91_quad_bounds (c1 c2 c3 c4 : Char)
    (h1 : 33 ≤ c1.toNat) (h1' : c1.toNat ≤ 123)
    (h2 : 33 ≤ c2.toNat) (h2' : c2.toNat ≤ 123)
    (h3 : 33 ≤ c3.toNat) (h3' : c3.toNat ≤ 123)
    (h4 : 33 ≤ c4.toNat) (h4' : c4.toNat ≤ 123) :
    0 ≤ _parse_base91 [c1, c2, c3, c4] ∧ _parse_base91 [c1, c2, c3, c4] ≤ 68574960 := by
  simp only [_parse_base91, List.foldl]
  omega

theorem compressed_eval (s1 l1 l2 l3 l4 o1 o2 o3 o4 s2 c s t : Char)
    (hnl : (([s1, l1, l2, l3, l4, o1, o2, o3, o4, s2, c, s, t] : Str)).all
      (fun ch => ch != '\n') = true) :
    ∃ tail, _parse_position_and_symbol [] [] [s1, l1, l2, l3, l4, o1, o2, o3, o4, s2, c, s, t]
      = ([Fact.Position (90 - (_parse_base91 [l1, l2, l3, l4] : ℚ) / 380926)
            (-180 + (_parse_base91 [o1, o2, o3, o4] : ℚ) / 190463),
          Fact.Symbol [s1, s2]] ++ tail, [], []) := by
  simp only [_parse_position_and_symbol, _parse_symbol, List.length_cons, List.length_nil]
  norm_num [List.take, List.drop, dotStarEnd, List.takeWhile, List.dropWhile, List.headD, hnl]
  split_ifs <;> exact ⟨_, rfl⟩

/-- Claim C2 (amended): for a 13-byte compressed position body whose
base91 latitude/longitude digits are valid (bytes 33..123), the Position
fact satisfies 90 − 68574960/380926 ≤ latitude ≤ 90 and
−180 ≤ longitude ≤ −180 + 68574960/190463 (the exact attainable range;
the claimed [−90, 90] × [−180, 180] is slightly exceeded at the top of
the digit range). -/
theorem aprs_c2_amended (s1 l1 l2 l3 l4 o1 o2 o3 o4 s2 c s t : Char)
    (hrange : ∀ ch ∈ ([l1, l2, l3, l4, o1, o2, o3, o4] : Str),
      33 ≤ ch.toNat ∧ ch.toNat ≤ 123)
    (hnl : (([s1, l1, l2, l3, l4, o1, o2, o3, o4, s2, c, s, t] : Str)).all
      (fun ch => ch != '\n') = true) :
    compressedOutcome s1 l1 l2 l3 l4 o1 o2 o3 o4 s2 c s t := by
  have e1 := hrange l1 (by simp)
  have e2 := hrange l2 (by simp)
  have e3 := hrange l3 (by simp)
  have e4 := hrange l4 (by simp)
  have e5 := hrange o1 (by simp)
  have e6 := hrange o2 (by simp)
  have e7 := hrange o3 (by simp)
  have e8 := hrange o4 (by simp)
  have hb1 := base91_quad_bounds l1 l2 l3 l4 e1.1 e1.2 e2.1 e2.2 e3.1 e3.2 e4.1 e4.2
  have hb2 := base91_quad_bounds o1 o2 o3 o4 e5.1 e5.2 e6.1 e6.2 e7.1 e7.2 e8.1 e8.2
  obtain ⟨tail, heq⟩ := compressed_eval s1 l1 l2 l3 l4 o1 o2 o3 o4 s2 c s t hnl
  refine ⟨_, _, _, heq, by simp, ?_, ?_, ?_, ?_⟩
  · gcongr
    exact_mod_cast hb1.2
  · have : (0 : ℚ) ≤ (_parse_base91 [l1, l2, l3, l4] : ℚ) / 380926 := by
      apply div_nonneg _ (by norm_num)
      exact_mod_cast hb1.1
    linarith
  · have : (0 : ℚ) ≤ (_parse_base91 [o1, o2, o3, o4] : ℚ) / 190463 := by
      apply div_nonneg _ (by norm_num)
      exact_mod_cast hb2.1
    linarith
  · gcongr
    exact_mod_cast hb2.2

theorem aprs_c2_witness :
    compressedOutcome '/' '!' '!' '!' '!' '!' '!' '!' '!' '-' ' ' ' ' '!' :=
  aprs_c2_amended '/' '!' '!' '!' '!' '!' '!' '!' '!' '-' ' ' ' ' '!'
    (by decide) (by decide)

theorem digitChar_isDigit (a : ℕ) (h : a < 10) : (digitChar a).isDigit = true := by
  interval_cases a <;> decide

theorem digitVal_digitChar (a : ℕ) (h : a < 10) : digitVal (digitChar a) = a := by
  interval_cases a <;> decide

theorem digitsVal_pair (a b : ℕ) (ha : a < 10) (hb : b < 10) :
    digitsVal [digitChar a, digitChar b] = 10 * a + b := by
  simp [digitsVal, List.foldl, digitVal_digitChar a ha, digitVal_digitChar b hb]
  omega

/-- Claim C9: a six-digit timestamp with kind byte in z/h/slash appends
exactly one Timestamp fact resolved against the receive-time anchor (UTC
calendar for z and h, local calendar for slash) when the encoded values
are in calendar range, and appends one error with no fact otherwise
(day 32, hour 25, …). -/
theorem aprs_c9_timestamp (a b c d e f : ℕ) (k : Char) (facts : List Fact)
    (errors : List Str) (rt : ℚ) (tz : ℤ)
    (ha : a < 10) (hb : b < 10) (hc : c < 10) (hd : d < 10) (he : e < 10) (hf : f < 10)
    (hk : k = 'z' ∨ k = 'h' ∨ k = '/') :
    timestampOutcome a b c d e f k facts errors rt tz := by
  unfold timestampOutcome _parse_dhm_hms_timestamp
  rcases hk with hk | hk | hk <;> subst hk <;>
    simp [List.all_cons, digitChar_isDigit a ha, digitChar_isDigit b hb,
      digitChar_isDigit c hc, digitChar_isDigit d hd, digitChar_isDigit e he,
      digitChar_isDigit f hf, digitsVal_pair a b ha hb, digitsVal_pair c d hc hd,
      digitsVal_pair e f he hf]

theorem aprs_c9_witness : timestampOutcome 3 2 1 2 3 4 'z' [] [] 0 0 :=
  aprs_c9_timestamp 3 2 1 2 3 4 'z' [] [] 0 0 (by decide) (by decide) (by decide)
    (by decide) (by decide) (by decide) (Or.inl rfl)

theorem micETrailer_spec (fa : List Fact) (er : List Str) (t : Str) :
    ∃ xf xe cm, micETrailer fa er t = (fa ++ xf, er ++ xe, cm) ∧
      ∀ la lo, Fact.Position la lo ∉ xf := by
  unfold micETrailer
  rcases t with _ | ⟨tc, tmRest⟩
  · exact ⟨[], [micETypeError []], [], by simp, by simp⟩
  · dsimp only
    split_ifs with h1
    · rcases tmRest with _ | ⟨a, _ | ⟨b, _ | ⟨c, _ | ⟨brace, more⟩⟩⟩⟩
      · exact ⟨[], [], [], by simp, by simp⟩
      · exact ⟨[], [], [a], by simp, by simp⟩
      · exact ⟨[], [], [a, b], by simp, by simp⟩
      · exact ⟨[], [], [a, b, c], by simp, by simp⟩
      · dsimp only
        split_ifs with h2
        · exact ⟨[Fact.Altitude ((_parse_base91 [a, b, c] : ℚ) - 10000) false], [], more,
            by simp, by simp⟩
        · exact ⟨[], [], a :: b :: c :: brace :: more, by simp, by simp⟩
    · exact ⟨[], [micETypeError (tc :: tmRest)], tc :: tmRest, by simp, by simp⟩

theorem micETrailer_mem_facts (fa : List Fact) (er : List Str) (t : Str) (x : Fact)
    (hx : x ∈ fa) : x ∈ (micETrailer fa er t).1 := by
  obtain ⟨xf, xe, cm, heq, _⟩ := micETrailer_spec fa er t
  rw [heq]
  exact List.mem_append_left _ hx

theorem micETrailer_mem_errors (fa : List Fact) (er : List Str) (t : Str) (e : Str)
    (he : e ∈ er) : e ∈ (micETrailer fa er t).2.1 := by
  obtain ⟨xf, xe, cm, heq, _⟩ := micETrailer_spec fa er t
  rw [heq]
  exact List.mem_append_left _ he

theorem micETrailer_no_position (fa : List Fact) (er : List Str) (t : Str)
    (hfa : ∀ la lo, Fact.Position la lo ∉ fa) (la lo : ℚ) :
    Fact.Position la lo ∉ (micETrailer fa er t).1 := by
  obtain ⟨xf, xe, cm, heq, hxf⟩ := micETrailer_spec fa er t
  rw [heq]
  intro hmem
  rcases List.mem_append.1 hmem with h | h
  · exact hfa la lo h
  · exact hxf la lo h

/-- Claim C10: a Mic-E payload with at least 8 bytes after the marker and
a destination whose first six characters all map through the decode table
always yields a Velocity and a Symbol fact; when the latitude string does
not parse, the latitude error is appended and no Position fact is
produced, but Velocity and Symbol are still emitted. -/
theorem aprs_c10_mic_e (src dr rest tm : Str)
    (dt d1 d2 d3 d4 d5 d6 b1 b2 b3 b4 b5 b6 s1 s2 : Char) (rt : ℚ) (tz : ℤ)
    (entries : List (Char × ℕ × Char × ℕ × ℤ))
    (hdt : dt = Char.ofNat 96 ∨ dt = Char.ofNat 39)
    (hb : (([b1, b2, b3, b4, b5, b6, s1, s2] : Str)).all (fun ch => ch != '\n') = true)
    (hrest : dotStarEnd rest = some tm)
    (hentries : ([d1, d2, d3, d4, d5, d6] : Str).mapM _mic_e_addr_decode_table = some entries) :
    micEOutcome src (d1 :: d2 :: d3 :: d4 :: d5 :: d6 :: dr)
      (dt :: b1 :: b2 :: b3 :: b4 :: b5 :: b6 :: s1 :: s2 :: rest) rt tz entries := by
  unfold micEOutcome _parse_payload
  rcases hdt with hdt | hdt <;> subst hdt <;>
    simp only [List.all_cons, hb, List.length_cons, List.take, List.drop, List.headD,
      Bool.and_true, Bool.true_and] <;>
    rw [if_neg (by decide), if_neg (by decide), if_neg (by decide), if_neg (by decide),
      if_pos (by decide)] <;>
    rw [if_pos (And.intro (by omega) (by decide)), hrest] <;>
    dsimp only <;>
    rw [if_neg (by omega), hentries] <;>
    dsimp only [_parse_symbol] <;>
    rcases hlat : _parse_angle (micELatitudeString entries) with _ | la <;>
    simp only [hlat] <;>
    refine ⟨_, _, _, rfl, ?_, ?_, ?_⟩
  all_goals first
    | exact ⟨_, _, micETrailer_mem_facts _ _ _ _
        (List.mem_append_left _ (List.mem_append_right _ (List.mem_cons_self _ _)))⟩
    | exact ⟨_, micETrailer_mem_facts _ _ _ _
        (List.mem_append_right _ (List.mem_cons_self _ _))⟩
    | (intro h; exact Option.noConfusion h)
    | (intro h
       refine ⟨fun la lo => micETrailer_no_position _ _ _ ?_ la lo,
         micETrailer_mem_errors _ _ _ _ (by simp)⟩
       intro la2 lo2 hm
       simp at hm)

theorem aprs_c10_witness :
    micEOutcome "SRC".toList ('A' :: 'A' :: 'A' :: 'A' :: 'A' :: 'A' :: [])
      (Char.ofNat 96 :: '0' :: '0' :: '0' :: '0' :: '0' :: '0' :: 'A' :: 'B' :: [']'])
      0 0
      [('0', 1, ' ', 0, 0), ('0', 1, ' ', 0, 0), ('0', 1, ' ', 0, 0),
       ('0', 1, ' ', 0, 0), ('0', 1, ' ', 0, 0), ('0', 1, ' ', 0, 0)] :=
  aprs_c10_mic_e "SRC".toList [] [']'] [']'] (Char.ofNat 96) 'A' 'A' 'A' 'A' 'A' 'A'
    '0' '0' '0' '0' '0' '0' 'A' 'B' 0 0
    [('0', 1, ' ', 0, 0), ('0', 1, ' ', 0, 0), ('0', 1, ' ', 0, 0),
     ('0', 1, ' ', 0, 0), ('0', 1, ' ', 0, 0), ('0', 1, ' ', 0, 0)]
    (Or.inl rfl) (by decide) (by decide) (by decide)

end APRS
